import Mathlib

/-!
Shallow embedding of `src/observer_ptr.hpp` (namespace `sunfyre`), a
non-owning observer-pointer wrapper mirroring the Library Fundamentals
TS v2 `observer_ptr`.

Modelling choices:
- A raw address (`T*`) is modelled as a natural number `Addr`, with `0`
  playing the role of the null pointer (`nullptr`). `std::less` over the
  common pointer type becomes `<` on `Addr`, a total order.
- The wrapper `observer_ptr<T>` is a structure with the single field
  `ptr : Addr`, exactly mirroring the C++ class, whose only data member
  is `T* ptr`.
- Mutating members become state-passing functions: a member returning
  `R` and mutating `*this` becomes a function `observer_ptr → R × observer_ptr`
  (or `observer_ptr → observer_ptr` for `void` members).
- Heterogeneous comparisons over related pointee types `W1`, `W2` collapse
  to comparisons on the common address type `Addr`, which is precisely the
  value they are computed from in the source.
- The pointee memory, needed only for `operator*`, is modelled as a total
  map `mem : Addr → Nat`.
- Exception behaviour: every operation in the source is `noexcept` or
  contains no potentially-throwing construct; the `...E` variants embed
  each operation into `Except Unit`, with a `throw` wherever the source
  could signal an error (nowhere), so each is `Except.ok` of the pure
  result.
-/

namespace Sunfyre

/-- Raw address type; `0` is the null pointer (`nullptr`). -/
abbrev Addr : Type := Nat

/-- The distinguished absent address (`nullptr`). -/
def nullAddr : Addr := 0

/-- `template <typename T> struct observer_ptr` — the only data member is
`T* ptr` (line 88 of the source). -/
structure observer_ptr where
  ptr : Addr
deriving Repr, DecidableEq

/-- `constexpr auto get() const noexcept -> element_type* { return this->ptr; }` -/
def observer_ptr.get (w : observer_ptr) : Addr := w.ptr

/-- `constexpr observer_ptr() noexcept : ptr(nullptr) {}` -/
def observer_ptr.mkDefault : observer_ptr := ⟨0⟩

/-- `constexpr observer_ptr(std::nullptr_t) noexcept : ptr(nullptr) {}` -/
def observer_ptr.mkFromNull : observer_ptr := ⟨0⟩

/-- `constexpr explicit observer_ptr(element_type* p) noexcept : ptr(p) {}` -/
def observer_ptr.mkExplicit (p : Addr) : observer_ptr := ⟨p⟩

/-- Converting constructor `observer_ptr(observer_ptr<W2> other) noexcept : ptr(other.get())`
(the `enable_if` convertibility gate is a compile-time check collapsing to
the common address type in this model). -/
def observer_ptr.fromRelated (other : observer_ptr) : observer_ptr := ⟨other.get⟩

/-- `constexpr void reset(element_type* p = nullptr) noexcept { this->ptr = p; }`
with an explicit argument. The wrapper has a single field, so the
assignment `this->ptr = p` yields the state `⟨p⟩`. -/
def observer_ptr.reset (w : observer_ptr) (p : Addr) : observer_ptr := ⟨p⟩

/-- `reset()` called with the defaulted argument `p = nullptr`. -/
def observer_ptr.resetDefault (w : observer_ptr) : observer_ptr := w.reset 0

/-- `constexpr auto release() noexcept -> element_type*`:
`element_type* p = this->get(); this->reset(); return p;`
Returns the pair (returned address, post-state). -/
def observer_ptr.release (w : observer_ptr) : Addr × observer_ptr :=
  let p : Addr := w.get
  let w2 : observer_ptr := w.resetDefault
  (p, w2)

/-- `constexpr void swap(observer_ptr& other) noexcept { swap(this->ptr, other.ptr); }`
Returns the pair (new `*this`, new `other`). -/
def observer_ptr.swap (a b : observer_ptr) : observer_ptr × observer_ptr :=
  (⟨b.ptr⟩, ⟨a.ptr⟩)

/-- `constexpr operator bool() const noexcept { return this->get() != nullptr; }` -/
def observer_ptr.toBool (w : observer_ptr) : Bool := w.get != 0

/-- `constexpr auto operator* () const noexcept { return *this->get(); }` —
reads the pointee through the memory map, with no null check. -/
def observer_ptr.deref (mem : Addr → Nat) (w : observer_ptr) : Nat := mem w.get

/-- `constexpr auto operator-> () const noexcept -> element_type* { return this->get(); }` -/
def observer_ptr.arrow (w : observer_ptr) : Addr := w.get

/-- `constexpr explicit operator element_type* () const noexcept { return this->get(); }` -/
def observer_ptr.toElementPtr (w : observer_ptr) : Addr := w.get

/-- `template <typename T> inline auto make_observer(T* p) noexcept
{ return observer_ptr<T>(p); }` -/
def make_observer (p : Addr) : observer_ptr := observer_ptr.mkExplicit p

/-- `operator== (observer_ptr<W1>, observer_ptr<W2>) { return p1.get() == p2.get(); }` -/
def opEq (p1 p2 : observer_ptr) : Bool := p1.get == p2.get

/-- `operator!= (observer_ptr<W1>, observer_ptr<W2>) { return !(p1 == p2); }` -/
def opNe (p1 p2 : observer_ptr) : Bool := !(opEq p1 p2)

/-- `operator== (observer_ptr<W>, nullptr_t) noexcept { return !p; }` -/
def opEqNull (p : observer_ptr) : Bool := !p.toBool

/-- `operator== (nullptr_t, observer_ptr<W>) noexcept { return !p; }` -/
def opNullEq (p : observer_ptr) : Bool := !p.toBool

/-- `operator!= (observer_ptr<W>, nullptr_t) noexcept { return static_cast<bool>(p); }` -/
def opNeNull (p : observer_ptr) : Bool := p.toBool

/-- `operator!= (nullptr_t, observer_ptr<W>) noexcept { return static_cast<bool>(p); }` -/
def opNullNe (p : observer_ptr) : Bool := p.toBool

/-- `operator< (observer_ptr<W1>, observer_ptr<W2>)
{ return std::less<common_type_t<W1*, W2*>>()(p1.get(), p2.get()); }` —
`std::less` over the common pointer type is the total order `<` on `Addr`. -/
def opLt (p1 p2 : observer_ptr) : Bool := decide (p1.get < p2.get)

/-- `operator> (p1, p2) { return p2 < p1; }` -/
def opGt (p1 p2 : observer_ptr) : Bool := opLt p2 p1

/-- `operator<= (p1, p2) { return !(p2 < p1); }` -/
def opLe (p1 p2 : observer_ptr) : Bool := !(opLt p2 p1)

/-- `operator>= (p1, p2) { return !(p1 < p2); }` -/
def opGe (p1 p2 : observer_ptr) : Bool := !(opLt p1 p2)

/-- `std::swap(observer_ptr<W>&, observer_ptr<W>&) noexcept { lhs.swap(rhs); }` —
delegates to the member swap. -/
def stdSwap (a b : observer_ptr) : observer_ptr × observer_ptr := a.swap b

/-- `std::hash<observer_ptr<T>>::operator() { return std::hash<T*>()(p.get()); }` —
parameterised over the ambient address-hashing function `h`. -/
def hashFn (h : Addr → Nat) (p : observer_ptr) : Nat := h p.get

/-! Exception-aware embeddings (`Except Unit`): the source contains no
`throw` and no potentially-throwing subexpression in any operation, so
each variant is `Except.ok` of the pure embedding. A `throw` would appear
here exactly where the source could signal an error. -/

/-- `observer_ptr()` never throws. -/
def mkDefaultE : Except Unit observer_ptr := Except.ok observer_ptr.mkDefault

/-- `observer_ptr(nullptr_t)` never throws. -/
def mkFromNullE : Except Unit observer_ptr := Except.ok observer_ptr.mkFromNull

/-- `observer_ptr(element_type*)` never throws. -/
def mkExplicitE (p : Addr) : Except Unit observer_ptr :=
  Except.ok (observer_ptr.mkExplicit p)

/-- Converting constructor never throws. -/
def fromRelatedE (other : observer_ptr) : Except Unit observer_ptr :=
  Except.ok (observer_ptr.fromRelated other)

/-- `get()` never throws. -/
def getE (w : observer_ptr) : Except Unit Addr := Except.ok w.get

/-- `operator bool()` never throws. -/
def toBoolE (w : observer_ptr) : Except Unit Bool := Except.ok w.toBool

/-- `operator*()` never throws (an empty wrapper is undefined behaviour,
not a signalled error). -/
def derefE (mem : Addr → Nat) (w : observer_ptr) : Except Unit Nat :=
  Except.ok (w.deref mem)

/-- `operator->()` never throws. -/
def arrowE (w : observer_ptr) : Except Unit Addr := Except.ok w.arrow

/-- `operator element_type*()` never throws. -/
def toElementPtrE (w : observer_ptr) : Except Unit Addr :=
  Except.ok w.toElementPtr

/-- `reset(p)` never throws. -/
def resetE (w : observer_ptr) (p : Addr) : Except Unit observer_ptr :=
  Except.ok (w.reset p)

/-- `release()` never throws. -/
def releaseE (w : observer_ptr) : Except Unit (Addr × observer_ptr) :=
  Except.ok w.release

/-- member `swap` never throws. -/
def swapE (a b : observer_ptr) : Except Unit (observer_ptr × observer_ptr) :=
  Except.ok (a.swap b)

/-- `make_observer(p)` never throws. -/
def make_observerE (p : Addr) : Except Unit observer_ptr :=
  Except.ok (make_observer p)

/-- `operator==` on two wrappers never throws. -/
def opEqE (p1 p2 : observer_ptr) : Except Unit Bool := Except.ok (opEq p1 p2)

/-- `operator!=` on two wrappers never throws. -/
def opNeE (p1 p2 : observer_ptr) : Except Unit Bool := Except.ok (opNe p1 p2)

/-- `operator==`/`operator!=` against `nullptr` never throw. -/
def opEqNullE (p : observer_ptr) : Except Unit Bool := Except.ok (opEqNull p)

/-- `operator<` never throws. -/
def opLtE (p1 p2 : observer_ptr) : Except Unit Bool := Except.ok (opLt p1 p2)

/-- `operator>` never throws. -/
def opGtE (p1 p2 : observer_ptr) : Except Unit Bool := Except.ok (opGt p1 p2)

/-- `operator<=` never throws. -/
def opLeE (p1 p2 : observer_ptr) : Except Unit Bool := Except.ok (opLe p1 p2)

/-- `operator>=` never throws. -/
def opGeE (p1 p2 : observer_ptr) : Except Unit Bool := Except.ok (opGe p1 p2)

/-- `std::swap` hook never throws. -/
def stdSwapE (a b : observer_ptr) : Except Unit (observer_ptr × observer_ptr) :=
  Except.ok (stdSwap a b)

/-- `std::hash` hook never throws. -/
def hashFnE (h : Addr → Nat) (p : observer_ptr) : Except Unit Nat :=
  Except.ok (hashFn h p)

/-! Theorems settling the specification claims. -/

/-- C1: for every wrapper `w`, `w.release()` returns the address that
`w.get()` held immediately before the call, and afterwards `w` is empty:
`w.get()` is the absent value and `bool(w)` is `false`. -/
theorem release_returns_prior_and_empties (w : observer_ptr) :
    w.release.1 = w.get ∧
    w.release.2.get = nullAddr ∧
    w.release.2.toBool = false := by
  refine ⟨rfl, rfl, ?_⟩
  simp [observer_ptr.release, observer_ptr.resetDefault, observer_ptr.reset,
    observer_ptr.toBool, observer_ptr.get]

/-- C2: after `w.reset(p)` the wrapper holds `p` exactly (its whole state
is `⟨p⟩`, so nothing else changes), and `reset()` with the defaulted
argument stores the absent value. -/
theorem reset_stores_argument (w : observer_ptr) (p : Addr) :
    (w.reset p).get = p ∧
    (w.reset p) = observer_ptr.mkExplicit p ∧
    w.resetDefault.get = nullAddr := by
  exact ⟨rfl, rfl, rfl⟩

/-- C3: `a == b` holds iff `a.get() == b.get()` (so two empty wrappers
compare equal), and `a != b` is the logical negation of `a == b`. -/
theorem eq_iff_get_eq (a b : observer_ptr) :
    (opEq a b = true ↔ a.get = b.get) ∧
    opNe a b = !(opEq a b) ∧
    opEq observer_ptr.mkDefault observer_ptr.mkDefault = true := by
  refine ⟨?_, rfl, rfl⟩
  simp [opEq]

/-- C4: `a < b` holds iff `a.get() < b.get()` under the total order on the
common address type; `a > b` iff `b < a`; `a <= b` iff not `(b < a)`;
`a >= b` iff not `(a < b)`; and `<` is an irreflexive, asymmetric,
transitive and total (trichotomous) relation on held addresses, i.e. a
strict total order. -/
theorem lt_iff_get_lt (a b c : observer_ptr) :
    (opLt a b = true ↔ a.get < b.get) ∧
    opGt a b = opLt b a ∧
    opLe a b = !(opLt b a) ∧
    opGe a b = !(opLt a b) ∧
    opLt a a = false ∧
    (opLt a b && opLt b a) = false ∧
    (!(opLt a b && opLt b c) || opLt a c) = true ∧
    (opLt a b || opLt b a || opEq a b) = true := by
  refine ⟨by simp [opLt], rfl, rfl, rfl, by simp [opLt], ?_, ?_, ?_⟩
  · by_cases h : a.get < b.get
    · simp [opLt, h, Nat.lt_asymm h]
    · simp [opLt, h]
  · by_cases hab : a.get < b.get
    · by_cases hbc : b.get < c.get
      · simp [opLt, hab, hbc, Nat.lt_trans hab hbc]
      · simp [opLt, hbc]
    · simp [opLt, hab]
  · rcases Nat.lt_trichotomy a.get b.get with h | h | h
    · simp [opLt, h]
    · simp [opLt, opEq, h]
    · simp [opLt, h]

/-- C5: the boolean conversion yields `true` iff the held address is not
the absent value. -/
theorem bool_iff_nonnull (w : observer_ptr) :
    w.toBool = true ↔ w.get ≠ nullAddr := by
  simp [observer_ptr.toBool, nullAddr]

/-- C6: comparison against the absent value in either argument order:
`w == nullptr` is `true` iff `w` is empty, and `w != nullptr` is `true`
iff `w` is non-empty. -/
theorem null_comparisons (w : observer_ptr) :
    (opEqNull w = true ↔ w.get = nullAddr) ∧
    (opNullEq w = true ↔ w.get = nullAddr) ∧
    (opNeNull w = true ↔ w.get ≠ nullAddr) ∧
    (opNullNe w = true ↔ w.get ≠ nullAddr) := by
  refine ⟨?_, ?_, ?_, ?_⟩ <;>
    simp [opEqNull, opNullEq, opNeNull, opNullNe, observer_ptr.toBool,
      nullAddr]

/-- C7: `swap(a, b)` exchanges exactly the held addresses — the resulting
states are exactly `(b, a)`, so nothing else about either wrapper changes —
and the generic `std::swap` overload delegates to the member `swap`. -/
theorem swap_exchanges (a b : observer_ptr) :
    (a.swap b).1.get = b.get ∧
    (a.swap b).2.get = a.get ∧
    a.swap b = (b, a) ∧
    stdSwap a b = a.swap b := by
  exact ⟨rfl, rfl, rfl, rfl⟩

/-- C8: every operation of the component — constructors, `get`, boolean
conversion, dereference, member access, reset, release, swap,
`make_observer`, all comparison operators, and the swap/hash hooks —
returns normally on every input: no operation signals an error. -/
theorem all_operations_no_throw (w a b : observer_ptr) (p : Addr)
    (mem h : Addr → Nat) :
    mkDefaultE.isOk = true ∧
    mkFromNullE.isOk = true ∧
    (mkExplicitE p).isOk = true ∧
    (fromRelatedE w).isOk = true ∧
    (getE w).isOk = true ∧
    (toBoolE w).isOk = true ∧
    (derefE mem w).isOk = true ∧
    (arrowE w).isOk = true ∧
    (toElementPtrE w).isOk = true ∧
    (resetE w p).isOk = true ∧
    (releaseE w).isOk = true ∧
    (swapE a b).isOk = true ∧
    (make_observerE p).isOk = true ∧
    (opEqE a b).isOk = true ∧
    (opNeE a b).isOk = true ∧
    (opEqNullE w).isOk = true ∧
    (opLtE a b).isOk = true ∧
    (opGtE a b).isOk = true ∧
    (opLeE a b).isOk = true ∧
    (opGeE a b).isOk = true ∧
    (stdSwapE a b).isOk = true ∧
    (hashFnE h w).isOk = true := by
  repeat' constructor

/-- C9: releasing `w` and resetting any `w2` with the returned address
yields a wrapper equal (under `operator==`) to `w` as it was before the
release. -/
theorem release_reset_round_trip (w w2 : observer_ptr) :
    opEq (w2.reset w.release.1) w = true := by
  simp [opEq, observer_ptr.reset, observer_ptr.release, observer_ptr.get]

/-- C10: `operator->` and the explicit conversion to the raw address type
both return exactly `w.get()` for every wrapper, performing no memory
access (neither takes the memory map as an input); in particular on an
empty wrapper both are total and return the absent value. -/
theorem arrow_and_cast_return_get (w : observer_ptr) :
    w.arrow = w.get ∧
    w.toElementPtr = w.get ∧
    observer_ptr.mkDefault.arrow = nullAddr ∧
    observer_ptr.mkDefault.toElementPtr = nullAddr := by
  exact ⟨rfl, rfl, rfl, rfl⟩

end Sunfyre
